import Mathlib

/-!
Verification of the kubevuln backend adapter (src/adapters/v1/backend.go).

The adapter submits container-scan results to a reporting platform:
SubmitCVE validates its inputs, resolves exception policies, merges the
full and relevant vulnerability sets, fills designator attributes,
summarizes, chunks and delivers the report; SendStatus reports discrete
lifecycle steps. Go maps are modelled as functions from keys to optional
values, the external collaborators (the exception store, the record
conversion, the workload hash, the HTTP sink) as function parameters,
and the helpers whose sources are not part of the reviewed tree are
modelled from the specification (their doc comments say so).
-/

namespace Kubevuln

/-- Go map[string]string, modelled as a partial function from keys to values. -/
abbrev Attributes := String → Option String

/-- Map assignment attrs[k] = v. -/
def setAttr (m : Attributes) (k v : String) : Attributes :=
  fun x => if x = k then some v else m x

/-- Attribute key identifiers.AttributeContainerName. -/
def AttributeContainerName : String := "containerName"

/-- Attribute key identifiers.AttributeWorkloadHash. -/
def AttributeWorkloadHash : String := "workloadHash"

/-- Attribute key identifiers.AttributeCustomerGUID. -/
def AttributeCustomerGUID : String := "customerGUID"

/-- Attribute key identifiers.AttributeRegistryName. -/
def AttributeRegistryName : String := "registryName"

/-- Attribute key identifiers.AttributeRepository. -/
def AttributeRepository : String := "repository"

/-- Attribute key identifiers.AttributeTag. -/
def AttributeTag : String := "tag"

/-- Attribute key identifiers.AttributeSensor. -/
def AttributeSensor : String := "sensor"

/-- domain.ScanCommand: the fields read by the adapter. Args models the
free-form argument map restricted to its string-typed values. -/
structure ScanCommand where
  Wlid : String
  ContainerName : String
  ImageTagNormalized : String
  ImageHash : String
  JobID : String
  ParentJobID : String
  LastAction : Int
  Args : Attributes

/-- One optional backfill from SubmitCVE lines 199 to 210: if the key is
present in ScanCommand.Args, assign it into the attribute map, otherwise
leave the map unchanged. -/
def argStep (args : Attributes) (k : String) (m : Attributes) : Attributes :=
  match args k with
  | some v => setAttr m k v
  | none => m

/-- Designator backfill from SubmitCVE lines 195 to 210, in source order:
container name, then the workload hash computed from the map as it stands
at that point, then customer GUID, then the optional registry, repository,
tag and sensor attributes from ScanCommand.Args. The hash function is the
external containerscan.GenerateWorkloadHash, taken as a parameter. -/
def fillDesignators (hash : Attributes → String) (base : Attributes) (guid : String)
    (w : ScanCommand) : Attributes :=
  let m1 := setAttr base AttributeContainerName w.ContainerName
  let m2 := setAttr m1 AttributeWorkloadHash (hash m1)
  let m3 := setAttr m2 AttributeCustomerGUID guid
  argStep w.Args AttributeSensor
    (argStep w.Args AttributeTag
      (argStep w.Args AttributeRepository
        (argStep w.Args AttributeRegistryName m3)))

/-- Modelled from the spec: the same backfill, but with the workload hash
"computed from the attribute mapping after backfill (hash must be computed
after all backfills so it is stable and complete)". This is the refinement
target the claim compares the source order against. -/
def fillDesignatorsSpec (hash : Attributes → String) (base : Attributes) (guid : String)
    (w : ScanCommand) : Attributes :=
  let m1 := setAttr base AttributeContainerName w.ContainerName
  let m3 := setAttr m1 AttributeCustomerGUID guid
  let m6 := argStep w.Args AttributeSensor
    (argStep w.Args AttributeTag
      (argStep w.Args AttributeRepository
        (argStep w.Args AttributeRegistryName m3)))
  setAttr m6 AttributeWorkloadHash (hash m6)

theorem setAttr_self (m : Attributes) (k v : String) : setAttr m k v k = some v := by
  simp [setAttr]

theorem setAttr_other (m : Attributes) (k v x : String) (h : ¬ x = k) :
    setAttr m k v x = m x := by
  simp [setAttr, h]

theorem setAttr_congr (m m2 : Attributes) (k v x : String) (h : m x = m2 x) :
    setAttr m k v x = setAttr m2 k v x := by
  unfold setAttr
  by_cases hx : x = k
  · simp [hx]
  · simp [hx, h]

theorem argStep_other (args : Attributes) (k : String) (m : Attributes) (x : String)
    (h : ¬ x = k) : argStep args k m x = m x := by
  unfold argStep
  cases args k with
  | none => rfl
  | some v => exact setAttr_other m k v x h

theorem argStep_congr (args : Attributes) (k : String) (m m2 : Attributes) (x : String)
    (h : m x = m2 x) : argStep args k m x = argStep args k m2 x := by
  unfold argStep
  cases args k with
  | none => exact h
  | some v => exact setAttr_congr m m2 k v x h

/-- A hash function that reads the customer GUID attribute: it witnesses that
the hash input lacks the backfills applied after it in the source. -/
def guidReadingHash : Attributes → String :=
  fun m => (m AttributeCustomerGUID).getD ("guid-absent")

/-- The empty attribute map. -/
def emptyAttrs : Attributes := fun _ => none

/-- A sample scan command with no optional Args. -/
def sampleWorkload : ScanCommand :=
  { Wlid := "wlid://cluster-c/namespace-n/deployment-d"
    ContainerName := "c1"
    ImageTagNormalized := "t1"
    ImageHash := "h1"
    JobID := "j1"
    ParentJobID := "p1"
    LastAction := 0
    Args := fun _ => none }

/-- C2 counterexample: SubmitCVE computes the workload hash at line 197,
before the customer GUID backfill at line 198 and the optional backfills at
lines 199 to 210. With a hash that reads the customer GUID attribute, the
source order stores the hash of a map that lacks the GUID, while the
spec-ordered computation (hash after all backfills) would store the GUID
itself, so the claim is false at this input. -/
theorem fillDesignators_hash_precedes_backfill :
    fillDesignators guidReadingHash emptyAttrs ("guid-0") sampleWorkload AttributeWorkloadHash
      = some ("guid-absent")
  ∧ fillDesignatorsSpec guidReadingHash emptyAttrs ("guid-0") sampleWorkload AttributeWorkloadHash
      = some ("guid-0") := by
  constructor
  · rfl
  · rfl

/-- C2 (amended): the workload hash is computed from the attribute mapping
right after the container-name backfill and before the customer GUID and the
optional registry, repository, tag and sensor backfills; it is deterministic
in that mapping, and every attribute other than the workload hash agrees
with the mapping obtained by the spec order of backfills. -/
theorem fillDesignators_hash_position (hash : Attributes → String) (base : Attributes)
    (guid : String) (w : ScanCommand) :
    fillDesignators hash base guid w AttributeWorkloadHash
      = some (hash (setAttr base AttributeContainerName w.ContainerName))
  ∧ ∀ k, ¬ k = AttributeWorkloadHash →
      fillDesignators hash base guid w k = fillDesignatorsSpec hash base guid w k := by
  constructor
  · show argStep w.Args AttributeSensor
        (argStep w.Args AttributeTag
          (argStep w.Args AttributeRepository
            (argStep w.Args AttributeRegistryName _))) AttributeWorkloadHash = _
    rw [argStep_other _ _ _ _ (by decide)]
    rw [argStep_other _ _ _ _ (by decide)]
    rw [argStep_other _ _ _ _ (by decide)]
    rw [argStep_other _ _ _ _ (by decide)]
    rw [setAttr_other _ _ _ _ (by decide)]
    exact setAttr_self _ _ _
  · intro k hk
    have h0 : setAttr (setAttr base AttributeContainerName w.ContainerName)
        AttributeWorkloadHash
        (hash (setAttr base AttributeContainerName w.ContainerName)) k
        = setAttr base AttributeContainerName w.ContainerName k :=
      setAttr_other _ _ _ _ hk
    have h1 := setAttr_congr _ _ AttributeCustomerGUID guid k h0
    have h2 := argStep_congr w.Args AttributeRegistryName _ _ k h1
    have h3 := argStep_congr w.Args AttributeRepository _ _ k h2
    have h4 := argStep_congr w.Args AttributeTag _ _ k h3
    have h5 := argStep_congr w.Args AttributeSensor _ _ k h4
    show argStep w.Args AttributeSensor _ k = setAttr _ AttributeWorkloadHash _ k
    rw [setAttr_other _ _ _ _ hk]
    exact h5

/-- Witness for the amended C2 theorem at concrete inputs. -/
theorem fillDesignators_hash_position_witness :
    fillDesignators guidReadingHash emptyAttrs ("guid-0") sampleWorkload AttributeWorkloadHash
      = some (guidReadingHash
          (setAttr emptyAttrs AttributeContainerName sampleWorkload.ContainerName))
  ∧ fillDesignators guidReadingHash emptyAttrs ("guid-0") sampleWorkload AttributeCustomerGUID
      = fillDesignatorsSpec guidReadingHash emptyAttrs ("guid-0") sampleWorkload
          AttributeCustomerGUID :=
  ⟨(fillDesignators_hash_position guidReadingHash emptyAttrs ("guid-0") sampleWorkload).1,
   (fillDesignators_hash_position guidReadingHash emptyAttrs ("guid-0") sampleWorkload).2
     AttributeCustomerGUID (by decide)⟩

/-- Error values of the adapter (domain errors, plus the opaque errors
returned by the external collaborators). -/
inductive Err where
  | missingTimestamp
  | missingScanID
  | castingWorkload
  | invalidScanID
  | exceptionLookup (msg : String)
  | convertFailed (msg : String)
  | sendFailed (msg : String)
deriving DecidableEq, Repr

/-- The scan content consumed by domainToArmo, opaque to the adapter. -/
abbrev ScanContent := String

/-- One CVE exception policy, opaque to the adapter. -/
abbrev ExceptionPolicy := String

/-- domain.CVEManifest: only its Content pointer is read by SubmitCVE. -/
structure CVEManifest where
  Content : Option ScanContent

/-- Modelled from the spec: DesignatorToArmoContext is the fixed
"designators"-scoped projection of the designator attributes (its source
is the external identifiers package). -/
structure ArmoContext where
  attributes : Attributes
  source : String

/-- The projection itself. -/
def DesignatorToArmoContext (d : Attributes) (src : String) : ArmoContext :=
  { attributes := d, source := src }

/-- containerscan.CommonContainerVulnerabilityResult: the fields the adapter
reads or writes. IsRelevant is the tri-state relevance pointer, Designators
and Context are filled in before summarization. -/
structure Vulnerability where
  Name : String
  IsRelevant : Option Bool := none
  Designators : Attributes := fun _ => none
  Context : Option ArmoContext := none

/-- Relevancy marking from SubmitCVE lines 176 to 185: index the relevant
records by name, then set IsRelevant on every full-set record to the
membership of its name in that index. -/
def markRelevant (vulnerabilities relevantVulnerabilities : List Vulnerability) :
    List Vulnerability :=
  let cvepIndices := relevantVulnerabilities.map Vulnerability.Name
  vulnerabilities.map fun v => { v with IsRelevant := some (cvepIndices.contains v.Name) }

/-- Relevancy merge from SubmitCVE lines 167 to 186: when a relevant
manifest is present, convert it with the same domainToArmo conversion and
the same exceptions, mark the full set by name, and report hasRelevancy;
when absent, leave the records untouched and report no relevancy. -/
def mergeRelevancy
    (domainToArmo : ScanContent → List ExceptionPolicy → Except Err (List Vulnerability))
    (vulnerabilities : List Vulnerability) (exceptions : List ExceptionPolicy)
    (cvepContent : Option ScanContent) : Except Err (List Vulnerability × Bool) :=
  match cvepContent with
  | none => Except.ok (vulnerabilities, false)
  | some content =>
    match domainToArmo content exceptions with
    | Except.error e => Except.error e
    | Except.ok relevantVulnerabilities =>
      Except.ok (markRelevant vulnerabilities relevantVulnerabilities, true)

/-- v1.ScanResultReportSummary: the fields the claims are about. -/
structure ReportSummary where
  Designators : Attributes
  Context : Option ArmoContext
  Total : Nat
  RelevantTotal : Option Nat

/-- Modelled from the spec: summarize (its source file is not under src/)
computes the aggregate counts in one pass, copies the report designators
onto the summary, and returns the record list it was given. -/
def summarize (designators : Attributes) (vulns : List Vulnerability)
    (hasRelevancy : Bool) : ReportSummary × List Vulnerability :=
  ({ Designators := designators
     Context := none
     Total := vulns.length
     RelevantTotal :=
       if hasRelevancy then some ((vulns.filter fun v => v.IsRelevant == some true).length)
       else none },
   vulns)

/-- Context and designator propagation from SubmitCVE lines 212 to 221:
derive the armo context from the report designators, write it and the
designators onto every record, summarize, and write the same context onto
the summary. -/
def attachContextAndSummarize (designators : Attributes) (vulns : List Vulnerability)
    (hasRelevancy : Bool) : ReportSummary × List Vulnerability :=
  let armoContext := DesignatorToArmoContext designators ("designators")
  let filled := vulns.map fun v => { v with Context := some armoContext, Designators := designators }
  let sv := summarize designators filled hasRelevancy
  ({ sv.1 with Context := some armoContext }, sv.2)

theorem map_const_replicate {α β : Type} (l : List α) (b : β) :
    l.map (fun _ => b) = List.replicate l.length b := by
  induction l with
  | nil => rfl
  | cons a t ih => simp [ih, List.replicate]

/-- C1: relevancy is the by-name membership test. With no relevant manifest
the records are returned unchanged (relevance stays unset) and hasRelevancy
is false; with a relevant manifest that converts to rel, hasRelevancy is
true, names are preserved, and every record's IsRelevant pointer is set to
exactly the membership of its name among the names of rel. -/
theorem mergeRelevancy_marks_by_name
    (domainToArmo : ScanContent → List ExceptionPolicy → Except Err (List Vulnerability))
    (vulns rel : List Vulnerability) (exceptions : List ExceptionPolicy)
    (content : ScanContent)
    (h : domainToArmo content exceptions = Except.ok rel) :
    mergeRelevancy domainToArmo vulns exceptions none = Except.ok (vulns, false)
  ∧ mergeRelevancy domainToArmo vulns exceptions (some content)
      = Except.ok (markRelevant vulns rel, true)
  ∧ (markRelevant vulns rel).map Vulnerability.Name = vulns.map Vulnerability.Name
  ∧ (markRelevant vulns rel).map Vulnerability.IsRelevant
      = vulns.map fun v => some ((rel.map Vulnerability.Name).contains v.Name) := by
  refine ⟨rfl, ?_, ?_, ?_⟩
  · simp [mergeRelevancy, h]
  · simp [markRelevant]
  · simp [markRelevant]

/-- Sample records named A, B, C for the relevancy scenario. -/
def vulnA : Vulnerability := { Name := "A" }

/-- Sample record named B. -/
def vulnB : Vulnerability := { Name := "B" }

/-- Sample record named C. -/
def vulnC : Vulnerability := { Name := "C" }

/-- Sample record named D. -/
def vulnD : Vulnerability := { Name := "D" }

/-- A conversion that yields the relevant records B, C, D. -/
def convBCD : ScanContent → List ExceptionPolicy → Except Err (List Vulnerability) :=
  fun _ _ => Except.ok [vulnB, vulnC, vulnD]

/-- Witness for C1 at the spec's scenario: full set A, B, C against
relevant set B, C, D. -/
theorem mergeRelevancy_marks_by_name_witness :
    mergeRelevancy convBCD [vulnA, vulnB, vulnC] [] none
      = Except.ok ([vulnA, vulnB, vulnC], false)
  ∧ mergeRelevancy convBCD [vulnA, vulnB, vulnC] [] (some ("cvep"))
      = Except.ok (markRelevant [vulnA, vulnB, vulnC] [vulnB, vulnC, vulnD], true)
  ∧ (markRelevant [vulnA, vulnB, vulnC] [vulnB, vulnC, vulnD]).map Vulnerability.Name
      = [vulnA, vulnB, vulnC].map Vulnerability.Name
  ∧ (markRelevant [vulnA, vulnB, vulnC] [vulnB, vulnC, vulnD]).map Vulnerability.IsRelevant
      = [vulnA, vulnB, vulnC].map fun v =>
          some (([vulnB, vulnC, vulnD].map Vulnerability.Name).contains v.Name) :=
  mergeRelevancy_marks_by_name convBCD [vulnA, vulnB, vulnC] [vulnB, vulnC, vulnD] []
    ("cvep") rfl

/-- C8: after the context fill and summarization, every record carries the
report designators and the same context object as the summary, and that
context is the "designators"-scoped projection of the designator set. -/
theorem attachContextAndSummarize_uniform (designators : Attributes)
    (vulns : List Vulnerability) (hasRelevancy : Bool) :
    ((attachContextAndSummarize designators vulns hasRelevancy).2).map Vulnerability.Designators
      = List.replicate vulns.length
          ((attachContextAndSummarize designators vulns hasRelevancy).1).Designators
  ∧ ((attachContextAndSummarize designators vulns hasRelevancy).2).map Vulnerability.Context
      = List.replicate vulns.length
          ((attachContextAndSummarize designators vulns hasRelevancy).1).Context
  ∧ ((attachContextAndSummarize designators vulns hasRelevancy).1).Context
      = some (DesignatorToArmoContext designators ("designators")) := by
  refine ⟨?_, ?_, rfl⟩
  · show (vulns.map _).map Vulnerability.Designators = _
    rw [List.map_map]
    exact map_const_replicate vulns designators
  · show (vulns.map _).map Vulnerability.Context = _
    rw [List.map_map]
    exact map_const_replicate vulns _

/-- Modelled from the spec: the chunk partitioner (httputils.SplitSlice2Chunks)
accumulates records into the current chunk while the serialized size fits the
byte budget, starts a new chunk at a record that would overflow a non-empty
chunk, and lets a record whose size alone exceeds the budget form its own
oversized chunk. The current chunk is accumulated in reverse. -/
def chunkAux {α : Type} (size : α → Nat) (budget : Nat) :
    List α → List α → Nat → List (List α)
  | [], cur, _ => [cur.reverse]
  | a :: rest, cur, used =>
    if cur.isEmpty ∨ used + size a ≤ budget then
      chunkAux size budget rest (a :: cur) (used + size a)
    else
      cur.reverse :: chunkAux size budget rest [a] (size a)

/-- The partitioner entry point: the chunk sequence plus the total record
count, as returned by SplitSlice2Chunks at SubmitCVE line 224. -/
def SplitSlice2Chunks {α : Type} (size : α → Nat) (budget : Nat) (l : List α) :
    List (List α) × Nat :=
  (chunkAux size budget l [] 0, l.length)

theorem chunkAux_flatten {α : Type} (size : α → Nat) (budget : Nat) (l : List α) :
    ∀ (cur : List α) (used : Nat),
      (chunkAux size budget l cur used).flatten = cur.reverse ++ l := by
  induction l with
  | nil => intro cur used; simp [chunkAux]
  | cons a rest ih =>
    intro cur used
    unfold chunkAux
    by_cases h : cur.isEmpty ∨ used + size a ≤ budget
    · rw [if_pos h, ih]
      simp
    · rw [if_neg h]
      simp only [List.flatten_cons, ih]
      simp

/-- C5: chunk boundaries never split a record and nothing is lost or
duplicated: concatenating the chunks in order gives back exactly the input
list, the reported total is the input length, and the record counts of the
chunks sum to that length. -/
theorem SplitSlice2Chunks_partition {α : Type} (size : α → Nat) (budget : Nat)
    (l : List α) :
    ((SplitSlice2Chunks size budget l).1).flatten = l
  ∧ (SplitSlice2Chunks size budget l).2 = l.length
  ∧ (((SplitSlice2Chunks size budget l).1).map List.length).sum = l.length := by
  have hj : ((SplitSlice2Chunks size budget l).1).flatten = l := by
    show (chunkAux size budget l [] 0).flatten = l
    rw [chunkAux_flatten]
    rfl
  refine ⟨hj, rfl, ?_⟩
  rw [← List.length_flatten, hj]

/-- v1.ScanResultReport: the fields the delivery claims are about. -/
structure Report where
  PartNum : Nat
  TotalVulnerabilities : Nat
  ContainerScanID : String
  Timestamp : Int
  Designators : Attributes
  Summary : Option ReportSummary
  Vulnerabilities : List Vulnerability

/-- Modelled from the spec: each remaining chunk is dispatched as an
independently numbered part, the part number assigned before dispatch,
deterministically from the chunk's position in the sequence. -/
def numberChunks (base : Report) : Nat → List (List Vulnerability) → List Report
  | _, [] => []
  | n, c :: cs =>
    { base with PartNum := n, Summary := none, Vulnerabilities := c }
      :: numberChunks base (n + 1) cs

/-- Part 1 of a delivery: the base report carrying the summary and the
first chunk. -/
def partOneOf (base : Report) (summary : ReportSummary)
    (firstChunk : List Vulnerability) : Report :=
  { base with PartNum := 1, Summary := some summary, Vulnerabilities := firstChunk }

/-- Modelled from the spec: the delivery pipeline. Part 1 carries the summary
and the first chunk; when the first chunk already holds every record no
further part is dispatched (SubmitCVE lines 234 to 246); otherwise the
remaining chunks are numbered from 2 and dispatched. Every dispatched part
feeds its outcome into the error queue, which is drained to completion: the
second component is the collected errors of all dispatched sends. -/
def deliver (send : Report → Option Err) (base : Report) (summary : ReportSummary)
    (firstChunk : List Vulnerability) (restChunks : List (List Vulnerability))
    (total : Nat) : List Report × List Err :=
  let reports :=
    if total = firstChunk.length then [partOneOf base summary firstChunk]
    else partOneOf base summary firstChunk :: numberChunks base 2 restChunks
  (reports, reports.filterMap send)

/-- C4: the drained error queue is exactly the collection of the individual
send outcomes of every dispatched part; the composite is empty (a nil
return) exactly when no send produced an error; and the set of dispatched
parts does not depend on the send outcomes, so one failure never aborts a
sibling send. -/
theorem deliver_aggregates_errors (send : Report → Option Err) (base : Report)
    (summary : ReportSummary) (firstChunk : List Vulnerability)
    (restChunks : List (List Vulnerability)) (total : Nat) :
    (deliver send base summary firstChunk restChunks total).2
      = ((deliver send base summary firstChunk restChunks total).1).filterMap send
  ∧ ((deliver send base summary firstChunk restChunks total).2 = []
      ↔ (((deliver send base summary firstChunk restChunks total).1).all
          fun r => (send r).isNone) = true)
  ∧ ∀ sendB, (deliver sendB base summary firstChunk restChunks total).1
      = (deliver send base summary firstChunk restChunks total).1 := by
  refine ⟨rfl, ?_, fun sendB => rfl⟩
  rw [show (deliver send base summary firstChunk restChunks total).2
      = ((deliver send base summary firstChunk restChunks total).1).filterMap send
      from rfl]
  rw [List.filterMap_eq_nil_iff, List.all_eq_true]
  constructor
  · intro h r hr
    simp [h r hr]
  · intro h r hr
    have := h r hr
    simpa using this

theorem numberChunks_partNum (base : Report) (cs : List (List Vulnerability)) :
    ∀ n, (numberChunks base n cs).map Report.PartNum = List.range' n cs.length := by
  induction cs with
  | nil => intro n; simp [numberChunks]
  | cons c rest ih =>
    intro n
    simp [numberChunks, ih (n + 1), List.range'_succ]

theorem numberChunks_length (base : Report) (cs : List (List Vulnerability)) :
    ∀ n, (numberChunks base n cs).length = cs.length := by
  induction cs with
  | nil => intro n; rfl
  | cons c rest ih =>
    intro n
    simp [numberChunks, ih (n + 1)]

/-- C6: the part numbers of the dispatched parts are exactly 1, 2, ... with
no gap and no reuse, globally increasing from the summary part through every
chunk; each part number is a function of the part's position alone, and the
dispatched sequence is independent of the send outcomes, hence of completion
order. -/
theorem deliver_part_numbering (send : Report → Option Err) (base : Report)
    (summary : ReportSummary) (firstChunk : List Vulnerability)
    (restChunks : List (List Vulnerability)) (total : Nat) :
    ((deliver send base summary firstChunk restChunks total).1).map Report.PartNum
      = List.range' 1 ((deliver send base summary firstChunk restChunks total).1).length
  ∧ ∀ sendB, (deliver sendB base summary firstChunk restChunks total).1
      = (deliver send base summary firstChunk restChunks total).1 := by
  refine ⟨?_, fun sendB => rfl⟩
  by_cases h : total = firstChunk.length
  · have h1 : (deliver send base summary firstChunk restChunks total).1
        = [partOneOf base summary firstChunk] := by
      show (if total = firstChunk.length then _ else _) = _
      rw [if_pos h]
    rw [h1]
    rfl
  · have h1 : (deliver send base summary firstChunk restChunks total).1
        = partOneOf base summary firstChunk :: numberChunks base 2 restChunks := by
      show (if total = firstChunk.length then _ else _) = _
      rw [if_neg h]
    rw [h1]
    simp [numberChunks_partNum base restChunks 2, numberChunks_length base restChunks 2,
      List.range'_succ, partOneOf]

/-- C7: when the first chunk already contains every record, part 1 alone is
dispatched and the drained queue holds exactly part 1's outcome; otherwise
every remaining chunk is dispatched after part 1; and in both cases,
unconditionally, the drained queue is exactly the outcomes of all
dispatched sends — the queue is completed only once every dispatched send
has contributed its outcome, and the drain over that finite queue
terminates (deliver is a total function). -/
theorem deliver_drain_completion (send : Report → Option Err) (base : Report)
    (summary : ReportSummary) (firstChunk : List Vulnerability)
    (restChunks : List (List Vulnerability)) (total : Nat) :
    (total = firstChunk.length →
      (deliver send base summary firstChunk restChunks total).1
        = [partOneOf base summary firstChunk]
      ∧ (deliver send base summary firstChunk restChunks total).2
        = (send (partOneOf base summary firstChunk)).toList)
  ∧ (¬ total = firstChunk.length →
      (deliver send base summary firstChunk restChunks total).1
        = partOneOf base summary firstChunk :: numberChunks base 2 restChunks)
  ∧ (deliver send base summary firstChunk restChunks total).2
      = ((deliver send base summary firstChunk restChunks total).1).filterMap send := by
  refine ⟨?_, ?_, rfl⟩
  · intro h
    have h1 : (deliver send base summary firstChunk restChunks total).1
        = [partOneOf base summary firstChunk] := by
      show (if total = firstChunk.length then _ else _) = _
      rw [if_pos h]
    refine ⟨h1, ?_⟩
    rw [show (deliver send base summary firstChunk restChunks total).2
        = ((deliver send base summary firstChunk restChunks total).1).filterMap send
        from rfl]
    rw [h1]
    cases hs : send (partOneOf base summary firstChunk) with
    | none => simp [List.filterMap, hs]
    | some e => simp [List.filterMap, hs]
  · intro h
    show (if total = firstChunk.length then _ else _) = _
    rw [if_neg h]

/-- A sink that always succeeds. -/
def sinkOk : Report → Option Err := fun _ => none

/-- A base report with empty designators. -/
def sampleBase : Report :=
  { PartNum := 0
    TotalVulnerabilities := 0
    ContainerScanID := "scanid-0"
    Timestamp := 0
    Designators := emptyAttrs
    Summary := none
    Vulnerabilities := [] }

/-- A summary with empty designators. -/
def sampleSummary : ReportSummary :=
  { Designators := emptyAttrs, Context := none, Total := 0, RelevantTotal := none }

/-- Witness for C7: the single-chunk branch at a delivery whose first chunk
holds every record, and the multi-chunk branch with a remaining chunk,
each hypothesis discharged at its concrete input. -/
theorem deliver_drain_completion_witness :
    ((deliver sinkOk sampleBase sampleSummary [vulnA] [] 1).1
        = [partOneOf sampleBase sampleSummary [vulnA]]
      ∧ (deliver sinkOk sampleBase sampleSummary [vulnA] [] 1).2
        = (sinkOk (partOneOf sampleBase sampleSummary [vulnA])).toList)
  ∧ (deliver sinkOk sampleBase sampleSummary [vulnA] [[vulnB]] 2).1
      = partOneOf sampleBase sampleSummary [vulnA] :: numberChunks sampleBase 2 [[vulnB]]
  ∧ (deliver sinkOk sampleBase sampleSummary [vulnA] [[vulnB]] 2).2
      = ((deliver sinkOk sampleBase sampleSummary [vulnA] [[vulnB]] 2).1).filterMap sinkOk :=
  ⟨(deliver_drain_completion sinkOk sampleBase sampleSummary [vulnA] [] 1).1 rfl,
   (deliver_drain_completion sinkOk sampleBase sampleSummary [vulnA] [[vulnB]] 2).2.1
     (by decide),
   (deliver_drain_completion sinkOk sampleBase sampleSummary [vulnA] [[vulnB]] 2).2.2⟩

/-- Constant ActionName from backend.go line 54. -/
def ActionName : String := "vuln scan"

/-- Constant ReporterName from backend.go line 55. -/
def ReporterName : String := "ca-vuln-scan"

/-- Constant maxBodySize from backend.go line 56. -/
def maxBodySize : Nat := 30000

/-- Detail label systemreports.JobStarted, an external constant. -/
def JobStarted : String := "JobStarted"

/-- Detail label systemreports.JobSuccess, an external constant. -/
def JobSuccess : String := "JobSuccess"

/-- Detail label systemreports.JobDone, an external constant. -/
def JobDone : String := "JobDone"

/-- The fixed detail-label table from backend.go lines 58 to 63. -/
def details : List String := [JobStarted, JobStarted, JobSuccess, JobDone]

/-- The fixed status-label table from backend.go lines 64 to 69. -/
def statuses : List String := ["Inqueueing", "Dequeueing", "Dequeueing", "Dequeueing"]

/-- Go slice indexing with an integer index: the value when the index is in
range, none where Go panics with an out-of-range index. -/
def goIndex (l : List String) (i : Int) : Option String :=
  if 0 ≤ i ∧ i.toNat < l.length then some (l.getD i.toNat ("")) else none

/-- The system report built by SendStatus, with the fields assigned at
backend.go lines 111 to 123. -/
structure StatusReport where
  CustomerGUID : String
  Reporter : String
  Status : String
  Target : String
  ActionID : String
  ActionIDN : Int
  ActionName : String
  JobID : String
  ParentAction : String
  Details : String

/-- Outcome of a SendStatus call: the workload-cast error, a Go panic from
an out-of-range table index, or a dispatched report together with the error
the sender delivered on the channel. -/
inductive StatusOutcome where
  | errCastingWorkload
  | panicked
  | sent (report : StatusReport) (err : Option Err)

/-- SendStatus from backend.go lines 101 to 130: retrieve the workload,
index the fixed status and detail tables by the step (both unguarded in the
source, hence the panic outcome out of range), build the report from the
ScanCommand identifiers and the two labels, hand the sender to the
dispatch function together with the JobSuccess status string, and return
the single error received from the channel. -/
def SendStatus (acct : String) (sendF : StatusReport → String → Bool → Option Err)
    (workload : Option ScanCommand) (step : Int) : StatusOutcome :=
  match workload with
  | none => StatusOutcome.errCastingWorkload
  | some w =>
    match goIndex statuses step with
    | none => StatusOutcome.panicked
    | some st =>
      match goIndex details step with
      | none => StatusOutcome.panicked
      | some dt =>
        let lastAction := w.LastAction + 1
        let report : StatusReport :=
          { CustomerGUID := acct
            Reporter := ReporterName
            Status := st
            Target := "vuln scan:: scanning wlid: " ++ w.Wlid ++ " , container: "
              ++ w.ContainerName ++ " imageTag: " ++ w.ImageTagNormalized
              ++ " imageHash: " ++ w.ImageHash
            ActionID := toString lastAction
            ActionIDN := lastAction
            ActionName := ActionName
            JobID := w.JobID
            ParentAction := w.ParentJobID
            Details := dt }
        StatusOutcome.sent report (sendF report JobSuccess true)

/-- The report SendStatus builds for an in-range step, spelled out. -/
def statusReportOf (acct : String) (w : ScanCommand) (step : Int) : StatusReport :=
  { CustomerGUID := acct
    Reporter := ReporterName
    Status := statuses.getD step.toNat ("")
    Target := "vuln scan:: scanning wlid: " ++ w.Wlid ++ " , container: "
      ++ w.ContainerName ++ " imageTag: " ++ w.ImageTagNormalized
      ++ " imageHash: " ++ w.ImageHash
    ActionID := toString (w.LastAction + 1)
    ActionIDN := w.LastAction + 1
    ActionName := ActionName
    JobID := w.JobID
    ParentAction := w.ParentJobID
    Details := details.getD step.toNat ("") }

theorem SendStatus_eq_sent (acct : String)
    (sendF : StatusReport → String → Bool → Option Err) (w : ScanCommand)
    (step : Int) (h : 0 ≤ step ∧ step ≤ 3) :
    SendStatus acct sendF (some w) step
      = StatusOutcome.sent (statusReportOf acct w step)
          (sendF (statusReportOf acct w step) JobSuccess true) := by
  have hs : goIndex statuses step = some (statuses.getD step.toNat ("")) := by
    unfold goIndex
    rw [if_pos]
    refine ⟨h.1, ?_⟩
    show step.toNat < statuses.length
    simp [statuses]
    omega
  have hd : goIndex details step = some (details.getD step.toNat ("")) := by
    unfold goIndex
    rw [if_pos]
    refine ⟨h.1, ?_⟩
    show step.toNat < details.length
    simp [details]
    omega
  simp only [SendStatus, hs, hd]
  rfl

theorem SendStatus_eq_panicked (acct : String)
    (sendF : StatusReport → String → Bool → Option Err) (w : ScanCommand)
    (step : Int) (h : ¬ (0 ≤ step ∧ step ≤ 3)) :
    SendStatus acct sendF (some w) step = StatusOutcome.panicked := by
  have hs : goIndex statuses step = none := by
    unfold goIndex
    rw [if_neg]
    intro hpos
    apply h
    refine ⟨hpos.1, ?_⟩
    have h2 := hpos.2
    simp [statuses] at h2
    omega
  simp only [SendStatus, hs]

/-- C9: for a step in range, SendStatus looks the status and detail labels
up in the fixed tables, builds the report from the ScanCommand identifiers
and those labels, dispatches it synchronously and returns exactly the error
the dispatch produced; and the tables are the fixed four-entry lists from
the source. -/
theorem SendStatus_fixed_steps (acct : String)
    (sendF : StatusReport → String → Bool → Option Err) (w : ScanCommand)
    (step : Int) (h : 0 ≤ step ∧ step ≤ 3) :
    ∃ report : StatusReport,
      SendStatus acct sendF (some w) step
        = StatusOutcome.sent report (sendF report JobSuccess true)
    ∧ report.Status = statuses.getD step.toNat ("")
    ∧ report.Details = details.getD step.toNat ("")
    ∧ report.CustomerGUID = acct
    ∧ report.Reporter = ReporterName
    ∧ report.ActionIDN = w.LastAction + 1
    ∧ report.ActionID = toString (w.LastAction + 1)
    ∧ report.ActionName = ActionName
    ∧ report.JobID = w.JobID
    ∧ report.ParentAction = w.ParentJobID
    ∧ statuses = ["Inqueueing", "Dequeueing", "Dequeueing", "Dequeueing"]
    ∧ details = [JobStarted, JobStarted, JobSuccess, JobDone] :=
  ⟨statusReportOf acct w step, SendStatus_eq_sent acct sendF w step h,
   rfl, rfl, rfl, rfl, rfl, rfl, rfl, rfl, rfl, rfl, rfl⟩

/-- A dispatch function that always succeeds. -/
def sendOk : StatusReport → String → Bool → Option Err := fun _ _ _ => none

/-- Witness for C9 at step 2 with a concrete workload. -/
theorem SendStatus_fixed_steps_witness :
    ∃ report : StatusReport,
      SendStatus ("acct-0") sendOk (some sampleWorkload) 2
        = StatusOutcome.sent report (sendOk report JobSuccess true)
    ∧ report.Status = statuses.getD (2 : Int).toNat ("")
    ∧ report.Details = details.getD (2 : Int).toNat ("")
    ∧ report.CustomerGUID = ("acct-0")
    ∧ report.Reporter = ReporterName
    ∧ report.ActionIDN = sampleWorkload.LastAction + 1
    ∧ report.ActionID = toString (sampleWorkload.LastAction + 1)
    ∧ report.ActionName = ActionName
    ∧ report.JobID = sampleWorkload.JobID
    ∧ report.ParentAction = sampleWorkload.ParentJobID
    ∧ statuses = ["Inqueueing", "Dequeueing", "Dequeueing", "Dequeueing"]
    ∧ details = [JobStarted, JobStarted, JobSuccess, JobDone] :=
  SendStatus_fixed_steps ("acct-0") sendOk sampleWorkload 2 (by decide)

/-- C10: with the workload present, SendStatus panics exactly when the step
is outside the index range of the fixed four-entry tables; the no-panic
guarantee holds only under the precondition that the step lies between 0
and 3. -/
theorem SendStatus_out_of_range_panics (acct : String)
    (sendF : StatusReport → String → Bool → Option Err) (w : ScanCommand)
    (step : Int) :
    SendStatus acct sendF (some w) step = StatusOutcome.panicked
      ↔ (step < 0 ∨ 3 < step) := by
  by_cases hc : 0 ≤ step ∧ step ≤ 3
  · rw [SendStatus_eq_sent acct sendF w step hc]
    constructor
    · intro hcontra
      exact absurd hcontra (by simp)
    · intro hrange
      exact absurd hrange (by omega)
  · rw [SendStatus_eq_panicked acct sendF w step hc]
    constructor
    · intro _
      omega
    · intro _
      rfl

/-- The request-scoped values SubmitCVE retrieves from the Go context; a
missing entry models a failed type assertion. -/
structure SubmitContext where
  timestamp : Option Int
  scanID : Option String
  workload : Option ScanCommand

/-- The external collaborators of the adapter, as the adapter sees them. -/
structure Env where
  accountID : String
  getClusterFromWlid : String → String
  getNamespaceFromWlid : String → String
  getKindFromWlid : String → String
  getNameFromWlid : String → String
  getCVEExceptionsFunc : String → Attributes → Except Err (List ExceptionPolicy)
  validateContainerScanID : String → Bool
  domainToArmo : ScanContent → List ExceptionPolicy → Except Err (List Vulnerability)
  attributesDesignatorsFromWLID : String → Attributes
  generateWorkloadHash : Attributes → String
  vulnSize : Vulnerability → Nat
  send : Report → Option Err

/-- The designator GetCVEExceptions builds at backend.go lines 81 to 91:
customer GUID plus the scope attributes decomposed from the wlid. -/
def exceptionsDesignator (env : Env) (w : ScanCommand) : Attributes := fun k =>
  if k = "customerGUID" then some env.accountID
  else if k = "scope.cluster" then some (env.getClusterFromWlid w.Wlid)
  else if k = "scope.namespace" then some (env.getNamespaceFromWlid w.Wlid)
  else if k = "scope.kind" then some ((env.getKindFromWlid w.Wlid).toLower)
  else if k = "scope.name" then some (env.getNameFromWlid w.Wlid)
  else if k = "scope.containerName" then some w.ContainerName
  else none

/-- GetCVEExceptions from backend.go lines 71 to 98: fail on a missing
workload, otherwise query the exception store with the designator. -/
def GetCVEExceptions (env : Env) (workload : Option ScanCommand) :
    Except Err (List ExceptionPolicy) :=
  match workload with
  | none => Except.error Err.castingWorkload
  | some w => env.getCVEExceptionsFunc env.accountID (exceptionsDesignator env w)

/-- Result of a SubmitCVE call: an early return before any send, the Go
panic on a nil full-manifest content, or delivery with the collected send
errors (an empty collection is the nil return). -/
inductive Outcome where
  | early (e : Err)
  | panicked
  | delivered (errs : List Err)

/-- SubmitCVE from backend.go lines 133 to 253: validate timestamp, scan ID
and workload; re-validate the scan ID; fetch exceptions; convert the full
manifest; merge relevancy from the optional relevant manifest; fill the
designators; attach context and summarize; chunk; deliver. The second
component is the trace of reports handed to the sink. -/
def SubmitCVE (env : Env) (ctx : SubmitContext) (cve cvep : CVEManifest) :
    Outcome × List Report :=
  match ctx.timestamp with
  | none => (Outcome.early Err.missingTimestamp, [])
  | some timestamp =>
    match ctx.scanID with
    | none => (Outcome.early Err.missingScanID, [])
    | some scanID =>
      match ctx.workload with
      | none => (Outcome.early Err.castingWorkload, [])
      | some workload =>
        if env.validateContainerScanID scanID then
          match GetCVEExceptions env (some workload) with
          | Except.error e => (Outcome.early e, [])
          | Except.ok exceptions =>
            match cve.Content with
            | none => (Outcome.panicked, [])
            | some content =>
              match env.domainToArmo content exceptions with
              | Except.error e => (Outcome.early e, [])
              | Except.ok vulnerabilities =>
                match mergeRelevancy env.domainToArmo vulnerabilities exceptions
                    cvep.Content with
                | Except.error e => (Outcome.early e, [])
                | Except.ok vhr =>
                  let designators := fillDesignators env.generateWorkloadHash
                    (env.attributesDesignatorsFromWLID workload.Wlid)
                    env.accountID workload
                  let sv := attachContextAndSummarize designators vhr.1 vhr.2
                  let chunksTotal := SplitSlice2Chunks env.vulnSize maxBodySize sv.2
                  let base : Report :=
                    { PartNum := 0
                      TotalVulnerabilities := chunksTotal.2
                      ContainerScanID := scanID
                      Timestamp := timestamp
                      Designators := designators
                      Summary := none
                      Vulnerabilities := [] }
                  let dr := deliver env.send base sv.1 (chunksTotal.1.headD [])
                    chunksTotal.1.tail chunksTotal.2
                  (Outcome.delivered dr.2, dr.1)
        else (Outcome.early Err.invalidScanID, [])

/-- C3: every validation failure aborts the submission with the
corresponding error before anything reaches the sink: the trace of sink
calls is empty in all five early-return cases. -/
theorem SubmitCVE_failfast (env : Env) (ctx : SubmitContext) (cve cvep : CVEManifest) :
    (ctx.timestamp = none →
      SubmitCVE env ctx cve cvep = (Outcome.early Err.missingTimestamp, []))
  ∧ (∀ t, ctx.timestamp = some t → ctx.scanID = none →
      SubmitCVE env ctx cve cvep = (Outcome.early Err.missingScanID, []))
  ∧ (∀ t s, ctx.timestamp = some t → ctx.scanID = some s → ctx.workload = none →
      SubmitCVE env ctx cve cvep = (Outcome.early Err.castingWorkload, []))
  ∧ (∀ t s w, ctx.timestamp = some t → ctx.scanID = some s → ctx.workload = some w →
      env.validateContainerScanID s = false →
      SubmitCVE env ctx cve cvep = (Outcome.early Err.invalidScanID, []))
  ∧ (∀ t s w e, ctx.timestamp = some t → ctx.scanID = some s → ctx.workload = some w →
      env.validateContainerScanID s = true →
      GetCVEExceptions env (some w) = Except.error e →
      SubmitCVE env ctx cve cvep = (Outcome.early e, [])) := by
  refine ⟨?_, ?_, ?_, ?_, ?_⟩
  · intro h1
    simp [SubmitCVE, h1]
  · intro t h1 h2
    simp [SubmitCVE, h1, h2]
  · intro t s h1 h2 h3
    simp [SubmitCVE, h1, h2, h3]
  · intro t s w h1 h2 h3 h4
    simp [SubmitCVE, h1, h2, h3, h4]
  · intro t s w e h1 h2 h3 h4 h5
    simp [SubmitCVE, h1, h2, h3, h4, h5]

/-- An environment whose exception store always fails. -/
def envExcFail : Env :=
  { accountID := "acct-0"
    getClusterFromWlid := fun _ => "cl"
    getNamespaceFromWlid := fun _ => "ns"
    getKindFromWlid := fun _ => "Deployment"
    getNameFromWlid := fun _ => "d"
    getCVEExceptionsFunc := fun _ _ => Except.error (Err.exceptionLookup ("down"))
    validateContainerScanID := fun s => s ≠ ("bad-scan-id")
    domainToArmo := fun _ _ => Except.ok []
    attributesDesignatorsFromWLID := fun _ => emptyAttrs
    generateWorkloadHash := fun _ => "hash"
    vulnSize := fun _ => 1
    send := sinkOk }

/-- An empty CVE manifest. -/
def emptyManifest : CVEManifest := { Content := none }

/-- Witness for C3: each of the five early-return cases at concrete inputs. -/
theorem SubmitCVE_failfast_witness :
    SubmitCVE envExcFail
        { timestamp := none, scanID := some ("s1"), workload := some sampleWorkload }
        emptyManifest emptyManifest
      = (Outcome.early Err.missingTimestamp, [])
  ∧ SubmitCVE envExcFail
        { timestamp := some 7, scanID := none, workload := some sampleWorkload }
        emptyManifest emptyManifest
      = (Outcome.early Err.missingScanID, [])
  ∧ SubmitCVE envExcFail
        { timestamp := some 7, scanID := some ("s1"), workload := none }
        emptyManifest emptyManifest
      = (Outcome.early Err.castingWorkload, [])
  ∧ SubmitCVE envExcFail
        { timestamp := some 7, scanID := some ("bad-scan-id"),
          workload := some sampleWorkload }
        emptyManifest emptyManifest
      = (Outcome.early Err.invalidScanID, [])
  ∧ SubmitCVE envExcFail
        { timestamp := some 7, scanID := some ("s1"), workload := some sampleWorkload }
        emptyManifest emptyManifest
      = (Outcome.early (Err.exceptionLookup ("down")), []) :=
  ⟨(SubmitCVE_failfast envExcFail
      { timestamp := none, scanID := some ("s1"), workload := some sampleWorkload }
      emptyManifest emptyManifest).1 rfl,
   (SubmitCVE_failfast envExcFail
      { timestamp := some 7, scanID := none, workload := some sampleWorkload }
      emptyManifest emptyManifest).2.1 7 rfl rfl,
   (SubmitCVE_failfast envExcFail
      { timestamp := some 7, scanID := some ("s1"), workload := none }
      emptyManifest emptyManifest).2.2.1 7 ("s1") rfl rfl rfl,
   (SubmitCVE_failfast envExcFail
      { timestamp := some 7, scanID := some ("bad-scan-id"),
        workload := some sampleWorkload }
      emptyManifest emptyManifest).2.2.2.1 7 ("bad-scan-id") sampleWorkload rfl rfl rfl
     (by decide),
   (SubmitCVE_failfast envExcFail
      { timestamp := some 7, scanID := some ("s1"), workload := some sampleWorkload }
      emptyManifest emptyManifest).2.2.2.2 7 ("s1") sampleWorkload
     (Err.exceptionLookup ("down")) rfl rfl rfl (by decide) rfl⟩

end Kubevuln
